import Mathlib

/-!
Shallow embedding of the PDF-Text-Extraction-with-OCR repository.

The repository is thin orchestration glue around two external engines (a
PDF rasterizer, `pdf2image`, and an OCR engine, `pytesseract`).  Those
external capabilities, together with the filesystem, are modelled as an
explicit environment (`OCREnv`); the repository's own logic —
validation, the page-image generator, the per-page extraction loop, the
result assembly and the JSON writer — is translated function by function
from `src/src/ocr_processor.py` (the validated design) and
`src/main.py` (the legacy variant).

Python exceptions are modelled with an error type `PyError` carrying the
exception class and its message; fallible code returns `Except PyError α`.
-/

/-- The Python exception classes raised by the repository, each carrying
its message string (`str(e)` in Python). -/
inductive PyError where
  | fileNotFoundError (msg : String)
  | valueError (msg : String)
  | typeError (msg : String)
  | unsupportedLanguageError (msg : String)
  | pdfProcessingError (msg : String)
  | ocrProcessorError (msg : String)
deriving DecidableEq, Repr

/-- `str(e)`: the message carried by an exception. -/
def PyError.message : PyError → String
  | .fileNotFoundError m => m
  | .valueError m => m
  | .typeError m => m
  | .unsupportedLanguageError m => m
  | .pdfProcessingError m => m
  | .ocrProcessorError m => m

/-- A PIL image: an opaque identifier plus the PIL mode string
(`"L"` for single-channel grayscale).  Pixel data is external and is
only observed through the environment's OCR function. -/
structure Image where
  id : Nat
  mode : String
deriving DecidableEq, Repr

/-- Outcome of `pdf2image.convert_from_path`: the list of page images in
document page order, or one of its failure modes. -/
inductive RasterResult where
  | ok (imgs : List Image)
  | pdfInfoNotInstalled
  | err (msg : String)
deriving DecidableEq, Repr

/-- The external world: filesystem inspection, the rasterizer and the
OCR engine.  `rasterize` takes the path and the grayscale flag; `ocr`
takes the tesseract language string and an image and either recognizes
text or fails with an engine error message.  `convertL` is PIL's
`image.convert("L")`. -/
structure OCREnv where
  fs_exists : String → Bool
  fs_size : String → Nat
  rasterize : String → Bool → RasterResult
  ocr : String → Image → Except String String
  convertL : Image → Image
  write_outcome : String → Option String
  is_windows : Bool
  tesseract_win_exists : Bool
  tesseract_version : Except String Unit
  get_languages : Except String (List String)

/-- `config/settings.py`, class `OCRConfig`: configuration constants
with their defaults. -/
structure OCRConfig where
  DEFAULT_LANGUAGES : List String := ["eng"]
  DEFAULT_OUTPUT_DIR : String := "output"
  TESSERACT_WINDOWS_PATH : String := "C:\\Program Files\\Tesseract-OCR\\tesseract.exe"
  PDF_SIZE_LIMIT : Nat := 100 * 1024 * 1024
deriving DecidableEq, Repr

/-- Split a character list on the path separator. -/
def splitSegs : List Char → List (List Char)
  | [] => [[]]
  | c :: cs =>
    let r := splitSegs cs
    if c = '/' then [] :: r
    else
      match r with
      | s :: rest => (c :: s) :: rest
      | [] => [[c]]

/-- `pathlib.PurePath.name`: the final path component (split on the
separator, empty segments dropped as path normalization does). -/
def pathName (p : String) : String :=
  match ((splitSegs p.data).filter (fun s => s ≠ [])).getLast? with
  | some n => String.mk n
  | none => ""

/-- Index of the last dot in a character list, as `str.rfind(".")`
(but `none` instead of `-1`). -/
def lastDotIdx (l : List Char) : Option Nat :=
  match l.reverse.findIdx? (fun c => c = '.') with
  | some j => some (l.length - 1 - j)
  | none => none

/-- `pathlib.PurePath.suffix`: the extension of the final component,
including the dot; empty when the name has no dot, starts with its only
dot, or ends with the dot. -/
def pathSuffix (p : String) : String :=
  let n := (pathName p).data
  match lastDotIdx n with
  | some i => if 0 < i ∧ i + 1 < n.length then String.mk (n.drop i) else ""
  | none => ""

/-- `pathlib.PurePath.stem`: the final component without its suffix. -/
def pathStem (p : String) : String :=
  let n := (pathName p).data
  match lastDotIdx n with
  | some i => if 0 < i ∧ i + 1 < n.length then String.mk (n.take i) else String.mk n
  | none => String.mk n

/-- `str.lower()` (ASCII case folding, which covers the `".pdf"`
comparison the code performs). -/
def pyLower (s : String) : String :=
  String.mk (s.data.map Char.toLower)

/-- Python whitespace characters recognized by `str.strip()`. -/
def isPyWs (c : Char) : Bool :=
  c = ' ' ∨ c = '\t' ∨ c = '\n' ∨ c = '\r' ∨ c = '\x0b' ∨ c = '\x0c'

/-- `str.strip()`: remove leading and trailing whitespace. -/
def pyStrip (s : String) : String :=
  String.mk (((s.data.dropWhile isPyWs).reverse.dropWhile isPyWs).reverse)

/-- `sep.join(xs)`. -/
def pyJoin (sep : String) : List String → String
  | [] => ""
  | [x] => x
  | x :: xs => x ++ sep ++ pyJoin sep xs

/-- `PDFOCRProcessor._validate_pdf_path` (ocr_processor.py, lines
95–104): the four checks in source order, each raising its own
exception.  Filesystem access is read-only (`exists`, `stat`). -/
def validate_pdf_path (env : OCREnv) (cfg : OCRConfig) (p : String) :
    Except PyError Unit :=
  if env.fs_exists p = false then
    .error (.fileNotFoundError ("Файл не найден: " ++ p))
  else if pyLower (pathSuffix p) ≠ ".pdf" then
    .error (.valueError ("Файл должен быть PDF: " ++ p))
  else if env.fs_size p = 0 then
    .error (.valueError ("Пустой PDF-файл: " ++ p))
  else if env.fs_size p > cfg.PDF_SIZE_LIMIT then
    .error (.valueError ("Размер PDF превышает " ++
      toString cfg.PDF_SIZE_LIMIT ++ " МБ: " ++ p))
  else
    .ok ()

/-- `PDFOCRProcessor.extract_text_with_tesseract` (ocr_processor.py,
lines 136–150): run the OCR engine on the image with the joined
language string, strip the result; any engine exception is caught and
turned into the empty string.  `tl` is `self.tesseract_langs`. -/
def extract_text_with_tesseract (env : OCREnv) (tl : String) (img : Image) :
    Except PyError String :=
  match env.ocr tl img with
  | .ok s => .ok (pyStrip s)
  | .error _ => .ok ""

/-- The string the page loop actually receives from
`extract_text_with_tesseract` (which never fails, so the error branch
is unreachable). -/
def extractStr (env : OCREnv) (tl : String) (img : Image) : String :=
  match extract_text_with_tesseract env tl img with
  | .ok s => s
  | .error _ => ""

/-- State of the generator returned by `PDFOCRProcessor.pdf_to_images`
(ocr_processor.py, lines 106–134).  The function body — validation,
then `pdf2image.convert_from_path`, then `yield from` — runs only when
the first element is requested: `unstarted` is the state right after
the call, `yielding imgs` holds the pages not yet handed out, and
`finished` is an exhausted generator. -/
inductive GenState where
  | unstarted (pdf_path : String) (grayscale : Bool)
  | yielding (imgs : List Image)
  | finished
deriving DecidableEq, Repr

/-- Calling `pdf_to_images(pdf_path, grayscale)`: in Python this only
creates the generator object; no code of the body runs. -/
def pdf_to_images (pdf_path : String) (grayscale : Bool) : GenState :=
  .unstarted pdf_path grayscale

/-- One `next()` on the generator: either an exception, or the next
image (`none` meaning `StopIteration`) together with the successor
state.  On the first request the body runs: `_validate_pdf_path`, then
the conversion with its two `except` clauses (ocr_processor.py, lines
119–134). -/
def genNext (env : OCREnv) (cfg : OCRConfig) :
    GenState → Except PyError (Option Image × GenState)
  | .unstarted p g =>
    match validate_pdf_path env cfg p with
    | .error e => .error e
    | .ok () =>
      match env.rasterize p g with
      | .ok [] => .ok (none, .finished)
      | .ok (i :: rest) => .ok (some i, .yielding rest)
      | .pdfInfoNotInstalled =>
        .error (.pdfProcessingError ("Poppler не установлен или не добавлен в PATH. " ++
          "Установите Poppler для работы с PDF."))
      | .err m => .error (.pdfProcessingError ("Ошибка конвертации PDF: " ++ m))
  | .yielding [] => .ok (none, .finished)
  | .yielding (i :: rest) => .ok (some i, .yielding rest)
  | .finished => .ok (none, .finished)

/-- Exhaustive consumption of the generator (what the `for` loop in
`process_pdf` does), with explicit fuel; returns the images in the
order they were yielded. -/
def consumeGen (env : OCREnv) (cfg : OCRConfig) : Nat → GenState →
    Except PyError (List Image)
  | 0, _ => .error (.pdfProcessingError "out of fuel")
  | fuel + 1, st =>
    match genNext env cfg st with
    | .error e => .error e
    | .ok (none, _) => .ok []
    | .ok (some i, st1) =>
      match consumeGen env cfg fuel st1 with
      | .error e => .error e
      | .ok rest => .ok (i :: rest)

/-- The value of draining the page-image generator: validation, then
conversion with its error wrapping.  `consumeGen_unstarted` proves that
full consumption of the generator computes exactly this. -/
def pdf_images_result (env : OCREnv) (cfg : OCRConfig) (p : String) (g : Bool) :
    Except PyError (List Image) :=
  match validate_pdf_path env cfg p with
  | .error e => .error e
  | .ok () =>
    match env.rasterize p g with
    | .ok imgs => .ok imgs
    | .pdfInfoNotInstalled =>
      .error (.pdfProcessingError ("Poppler не установлен или не добавлен в PATH. " ++
        "Установите Poppler для работы с PDF."))
    | .err m => .error (.pdfProcessingError ("Ошибка конвертации PDF: " ++ m))

/-- One page record of the result dictionary. -/
structure PageResult where
  page_number : Nat
  text : String
  status : String
deriving DecidableEq, Repr

/-- The result dictionary built by `process_pdf`. -/
structure DocumentResult where
  pdf_path : String
  pages : List PageResult
  languages : List String
  page_count : Nat
  status : String
deriving DecidableEq, Repr

/-- The page loop of `process_pdf` (ocr_processor.py, lines 171–178):
`enumerate(images_gen, start=1)`, one `PageResult` per image, status
`"success"` exactly when the extracted text is non-empty (Python
truthiness of the string). -/
def buildPages (env : OCREnv) (tl : String) : Nat → List Image → List PageResult
  | _, [] => []
  | i, img :: rest =>
    let t := extractStr env tl img
    { page_number := i, text := t,
      status := if t = "" then "empty_or_failed" else "success" } ::
      buildPages env tl (i + 1) rest

/-- `PDFOCRProcessor.process_pdf` (ocr_processor.py, lines 152–185) for
a processor with languages `langs` (so `tl = "+".join(langs)`): drain
the generator, build the pages, set `page_count` to `len(pages)`; any
exception out of the generator is re-raised as
`PDFProcessingError("Ошибка обработки PDF: ...")`.  Extraction itself
never raises, so the generator is the only failure source. -/
def process_pdf (env : OCREnv) (cfg : OCRConfig) (langs : List String)
    (p : String) : Except PyError DocumentResult :=
  match pdf_images_result env cfg p true with
  | .error e => .error (.pdfProcessingError ("Ошибка обработки PDF: " ++ e.message))
  | .ok imgs =>
    let pages := buildPages env (pyJoin "+" langs) 1 imgs
    .ok { pdf_path := p, pages := pages, languages := langs,
          page_count := pages.length, status := "success" }

/-! ### Legacy variant (`src/main.py`) -/

/-- Legacy `PDFOCRProcessor.pdf_to_images` (main.py, lines 88–113):
eager (returns the whole list), checks only existence and extension,
and because those checks sit inside the `try`, their exceptions are
also caught by `except Exception` and re-raised as
`PDFProcessingError("Ошибка конвертации PDF: ...")`.  The dedicated
`PDFInfoNotInstalledError` clause is not re-wrapped. -/
def legacy_pdf_to_images (env : OCREnv) (p : String) :
    Except PyError (List Image) :=
  if env.fs_exists p = false then
    .error (.pdfProcessingError ("Ошибка конвертации PDF: " ++ "Файл не найден: " ++ p))
  else if pyLower (pathSuffix p) ≠ ".pdf" then
    .error (.pdfProcessingError ("Ошибка конвертации PDF: " ++ "Файл должен быть PDF: " ++ p))
  else
    match env.rasterize p false with
    | .ok imgs => .ok imgs
    | .pdfInfoNotInstalled =>
      .error (.pdfProcessingError ("Poppler не установлен или не добавлен в PATH. " ++
        "Установите Poppler для работы с PDF."))
    | .err m => .error (.pdfProcessingError ("Ошибка конвертации PDF: " ++ m))

/-- Legacy `extract_text_with_tesseract` (main.py, lines 115–130):
converts the image to grayscale mode `"L"` first when needed, then
recognizes; any exception becomes the empty string. -/
def legacy_extract_text (env : OCREnv) (tl : String) (img : Image) :
    Except PyError String :=
  let img1 := if img.mode ≠ "L" then env.convertL img else img
  match env.ocr tl img1 with
  | .ok s => .ok (pyStrip s)
  | .error _ => .ok ""

/-- The string the legacy page loop receives. -/
def legacyExtractStr (env : OCREnv) (tl : String) (img : Image) : String :=
  match legacy_extract_text env tl img with
  | .ok s => s
  | .error _ => ""

/-- Legacy page loop (main.py, lines 153–162). -/
def legacyBuildPages (env : OCREnv) (tl : String) :
    Nat → List Image → List PageResult
  | _, [] => []
  | i, img :: rest =>
    let t := legacyExtractStr env tl img
    { page_number := i, text := t,
      status := if t = "" then "empty_or_failed" else "success" } ::
      legacyBuildPages env tl (i + 1) rest

/-- Legacy `process_pdf` (main.py, lines 132–168): eager conversion; an
EMPTY image list raises `PDFProcessingError("PDF не содержит
изображений или пуст")`, which the function's own `except` then wraps
in `"Ошибка обработки PDF: ..."`; `page_count` is set up front to
`len(images)`. -/
def legacy_process_pdf (env : OCREnv) (langs : List String) (p : String) :
    Except PyError DocumentResult :=
  let inner : Except PyError DocumentResult :=
    match legacy_pdf_to_images env p with
    | .error e => .error e
    | .ok [] => .error (.pdfProcessingError "PDF не содержит изображений или пуст")
    | .ok imgs =>
      .ok { pdf_path := p, pages := legacyBuildPages env (pyJoin "+" langs) 1 imgs,
            languages := langs, page_count := imgs.length, status := "success" }
  match inner with
  | .ok d => .ok d
  | .error e => .error (.pdfProcessingError ("Ошибка обработки PDF: " ++ e.message))

/-! ### Processor construction (`__init__` and its validators) -/

/-- A dynamically-typed Python value, as far as the language-list check
can observe it: a string, or something of another type (carrying only
its type name). -/
inductive PyVal where
  | pstr (s : String)
  | pother (typeName : String)
deriving DecidableEq, Repr

/-- The `languages` argument of the constructor: `None`, a non-list
value, or a list of dynamically-typed values. -/
inductive LangsArg where
  | noneArg
  | notAList (v : PyVal)
  | listArg (xs : List PyVal)
deriving DecidableEq, Repr

/-- `PDFOCRProcessor._validate_input_languages` (ocr_processor.py,
lines 47–61): default on `None`; `ValueError` when the argument is not
a list, is an empty list, or contains a non-string element; otherwise
the list itself. -/
def validate_input_languages (cfg : OCRConfig) (a : LangsArg) :
    Except PyError (List String) :=
  match a with
  | .noneArg => .ok cfg.DEFAULT_LANGUAGES
  | .notAList _ => .error (.valueError "Языки должны быть списком строк")
  | .listArg xs =>
    if xs = [] then
      .error (.valueError "Список языков не может быть пустым")
    else if (xs.all fun v => match v with | .pstr _ => true | .pother _ => false) = false then
      .error (.valueError "Все языки должны быть строками")
    else
      .ok (xs.filterMap fun v => match v with | .pstr s => some s | .pother _ => none)

/-- `PDFOCRProcessor._validate_languages` (ocr_processor.py, lines
63–77): ask tesseract for its available languages; a missing language
raises `UnsupportedLanguageError`, and the function's own `except`
wraps every failure (including that one) in
`OCRProcessorError("Ошибка проверки языков: ...")`.  The Python `repr`
of the two lists inside the message is abstracted as a comma join. -/
def validate_languages_check (env : OCREnv) (langs : List String) :
    Except PyError Unit :=
  let inner : Except PyError Unit :=
    match env.get_languages with
    | .error m => .error (.ocrProcessorError m)
    | .ok avail =>
      let missing := langs.filter (fun l => decide (l ∉ avail))
      if missing = [] then .ok ()
      else
        .error (.unsupportedLanguageError ("Следующие языки не поддерживаются: " ++
          pyJoin ", " missing ++ "." ++ "Доступные языки: " ++ pyJoin ", " avail))
  match inner with
  | .ok () => .ok ()
  | .error e => .error (.ocrProcessorError ("Ошибка проверки языков: " ++ e.message))

/-- `PDFOCRProcessor._init_tesseract` (ocr_processor.py, lines 79–93):
the Windows executable check sits before the `try`, so its error is
not wrapped here; the version probe and the language check are wrapped
in `OCRProcessorError("Tesseract не доступен: ...")`. -/
def init_tesseract (env : OCREnv) (langs : List String) (cfg : OCRConfig) :
    Except PyError Unit :=
  if env.is_windows = true ∧ env.tesseract_win_exists = false then
    .error (.ocrProcessorError ("Tesseract не найден по пути: " ++
      cfg.TESSERACT_WINDOWS_PATH ++ "." ++
      "Пожалуйста, установите Tesseract или укажите правильный путь."))
  else
    let inner : Except PyError Unit :=
      match env.tesseract_version with
      | .error m => .error (.ocrProcessorError m)
      | .ok () => validate_languages_check env langs
    match inner with
    | .ok () => .ok ()
    | .error e => .error (.ocrProcessorError ("Tesseract не доступен: " ++ e.message))

/-- The constructed processor object. -/
structure Processor where
  config : OCRConfig
  languages : List String
  tesseract_langs : String
deriving DecidableEq, Repr

/-- `PDFOCRProcessor.__init__` (ocr_processor.py, lines 21–37):
language-list validation runs outside the `try`, so its `ValueError`
propagates unwrapped; only `_init_tesseract` failures are wrapped in
`OCRProcessorError("Ошибка инициализации OCR процессора: ...")`.  On
any failure no `Processor` value exists. -/
def mkProcessor (env : OCREnv) (a : LangsArg) : Except PyError Processor :=
  let cfg : OCRConfig := {}
  match validate_input_languages cfg a with
  | .error e => .error e
  | .ok langs =>
    match init_tesseract env langs cfg with
    | .error e =>
      .error (.ocrProcessorError ("Ошибка инициализации OCR процессора: " ++ e.message))
    | .ok () =>
      .ok { config := cfg, languages := langs, tesseract_langs := pyJoin "+" langs }

/-! ### Result writer (`save_to_json`) -/

/-- The `data` dictionary handed to `save_to_json`, as far as the
function observes it: the two keys it requires (absent ⇔ `none`), plus
the remaining entries, carried opaquely. -/
structure SaveData where
  pdf_path : Option String
  languages : Option (List String)
  extra : List (String × String)
deriving DecidableEq, Repr

/-- The output side of the filesystem: directories created so far and
file contents by path. -/
structure OutStore where
  dirs : List String
  files : List (String × String)
deriving DecidableEq, Repr

/-- `Path.mkdir(parents=True, exist_ok=True)`: record the directory;
no error when it already exists. -/
def OutStore.mkdirParents (st : OutStore) (d : String) : OutStore :=
  if st.dirs.contains d then st else { st with dirs := d :: st.dirs }

/-- `open(path, "w")` followed by a full write: the previous content of
the path, if any, is replaced (truncate-and-write, not append). -/
def OutStore.writeFile (st : OutStore) (p c : String) : OutStore :=
  { st with files := (p, c) :: st.files.filter (fun kv => !(kv.1 == p)) }

/-- Content of a file in the store. -/
def OutStore.readFile (st : OutStore) (p : String) : Option String :=
  (st.files.find? (fun kv => kv.1 == p)).map (fun kv => kv.2)

/-- `json.dump(data, f, ensure_ascii=False, indent=4)` is an external
serializer; it is modelled as a deterministic rendering of the record
(one write of this string replaces the file's content). -/
def serializeData (d : SaveData) : String :=
  "pdf_path=" ++ (match d.pdf_path with | some s => s | none => "") ++
  ";languages=" ++ (match d.languages with | some l => pyJoin "_" l | none => "") ++
  ";" ++ pyJoin ";" (d.extra.map (fun kv => kv.1 ++ "=" ++ kv.2))

/-- `PDFOCRProcessor.save_to_json` (ocr_processor.py, lines 187–213):
require the `pdf_path` and `languages` keys (the Python message
interpolates the `repr` of the required-key set, abstracted here);
resolve the output directory (`output_dir or DEFAULT_OUTPUT_DIR`, so
`None` and the empty string both fall back to the default); create it
with parents; derive the file name from the source stem and the joined
languages; write, wrapping any I/O failure in `OCRProcessorError`.
Returns the outcome together with the updated store (the directory
creation persists even when the write fails). -/
def save_to_json (env : OCREnv) (cfg : OCRConfig) (st : OutStore)
    (data : SaveData) (output_dir : Option String) :
    Except PyError String × OutStore :=
  match data.pdf_path, data.languages with
  | some pp, some langs =>
    let dir := match output_dir with
      | none => cfg.DEFAULT_OUTPUT_DIR
      | some s => if s = "" then cfg.DEFAULT_OUTPUT_DIR else s
    let st1 := st.mkdirParents dir
    let output_path := dir ++ "/" ++ "result_" ++ pathStem pp ++ "_" ++
      pyJoin "_" langs ++ ".json"
    match env.write_outcome output_path with
    | none => (.ok output_path, st1.writeFile output_path (serializeData data))
    | some m => (.error (.ocrProcessorError ("Ошибка сохранения результатов: " ++ m)), st1)
  | _, _ => (.error (.valueError "Данные должны содержать pdf_path и languages"), st)

/-! ### Auxiliary definitions for the verification -/

/-- Enough `next()` calls to drain the generator from its initial
state: one to start the body, one per page, one for `StopIteration`. -/
def genFuelNeeded (env : OCREnv) (p : String) (g : Bool) : Nat :=
  (match env.rasterize p g with
   | .ok l => l.length
   | .pdfInfoNotInstalled => 0
   | .err _ => 0) + 2

/-- `needle` occurs as a contiguous substring of `haystack`. -/
def msgContains (needle haystack : String) : Prop :=
  ∃ pre post, haystack.data = pre ++ needle.data ++ post

/-- The resolved output directory of `save_to_json`:
`output_dir or DEFAULT_OUTPUT_DIR`. -/
def resolvedDir (cfg : OCRConfig) (output_dir : Option String) : String :=
  match output_dir with
  | none => cfg.DEFAULT_OUTPUT_DIR
  | some s => if s = "" then cfg.DEFAULT_OUTPUT_DIR else s

/-- The output path `save_to_json` computes:
`<dir>/result_<stem>_<lang1>_<lang2>....json`. -/
def outputPathFor (cfg : OCRConfig) (output_dir : Option String)
    (pp : String) (langs : List String) : String :=
  resolvedDir cfg output_dir ++ "/" ++ "result_" ++ pathStem pp ++ "_" ++
    pyJoin "_" langs ++ ".json"

/-! ### Concrete environments used to witness the theorems -/

/-- A grayscale page image. -/
def imgA : Image := { id := 0, mode := "L" }

/-- A second grayscale page image. -/
def imgB : Image := { id := 1, mode := "L" }

/-- A benign environment: every path exists with size 5, rasterization
yields zero pages, OCR returns the empty string, writes succeed,
tesseract is available with English and Russian. -/
def baseEnv : OCREnv where
  fs_exists := fun _ => true
  fs_size := fun _ => 5
  rasterize := fun _ _ => .ok []
  ocr := fun _ _ => .ok ""
  convertL := fun img => { img with mode := "L" }
  write_outcome := fun _ => none
  is_windows := false
  tesseract_win_exists := true
  tesseract_version := .ok ()
  get_languages := .ok ["eng", "rus"]

/-- Environment with one two-page document `input/doc.pdf`; the first
page recognizes to text with surrounding whitespace, the second to
whitespace only. -/
def envTwoPages : OCREnv :=
  { baseEnv with
    fs_exists := fun p => decide (p = "input/doc.pdf")
    rasterize := fun p _ =>
      if p = "input/doc.pdf" then .ok [imgA, imgB] else .err "no such file"
    ocr := fun _ img => if img.id = 0 then .ok "  Hello  " else .ok "   " }

/-- The Document Result `process_pdf` produces in `envTwoPages` for
`input/doc.pdf` with languages `["eng"]`. -/
def docTwoPages : DocumentResult :=
  { pdf_path := "input/doc.pdf",
    pages := [{ page_number := 1, text := "Hello", status := "success" },
              { page_number := 2, text := "", status := "empty_or_failed" }],
    languages := ["eng"], page_count := 2, status := "success" }

/-- Environment whose rasterizer always fails with a corrupt-structure
error (validation still passes: the file exists and is non-empty). -/
def envConvFail : OCREnv :=
  { baseEnv with rasterize := fun _ _ => .err "broken xref table" }

/-- Environment in which no path exists. -/
def envMissingFile : OCREnv :=
  { baseEnv with fs_exists := fun _ => false }

/-- Environment in which every file has size zero. -/
def envZeroSize : OCREnv :=
  { baseEnv with fs_size := fun _ => 0 }

/-- Environment in which every file is 200 MiB. -/
def envHuge : OCREnv :=
  { baseEnv with fs_size := fun _ => 200 * 1024 * 1024 }

/-- Environment whose OCR engine always raises. -/
def envOcrFail : OCREnv :=
  { baseEnv with
    rasterize := fun p _ =>
      if p = "input/doc.pdf" then .ok [imgA] else .err "no such file",
    ocr := fun _ _ => .error "tesseract crashed" }

example : pathSuffix "input/scan.PDF" = ".PDF" := by decide
example : pyLower (pathSuffix "input/scan.PDF") = ".pdf" := by decide
example : pathStem "input/scan.pdf" = "scan" := by decide
example : pathSuffix "archive" = "" := by decide
example : pathSuffix ".pdf" = "" := by decide
example : pyStrip "  hi there\n" = "hi there" := by decide
example : pyJoin "+" ["eng", "rus"] = "eng+rus" := by decide
example : ({} : OCRConfig).PDF_SIZE_LIMIT = 104857600 := by decide

/-! ### Shared lemmas -/

/-- Appending strings concatenates their character data. -/
theorem strData_append (a b : String) : (a ++ b).data = a.data ++ b.data := by
  cases a; cases b; rfl

/-- The first character of an appended string is the first character of
its non-empty left part. -/
theorem headData_append {x : String} (p : String) {c : Char}
    (h : x.data.head? = some c) : (x ++ p).data.head? = some c := by
  rw [strData_append]
  cases hd : x.data with
  | nil => rw [hd] at h; exact Option.noConfusion h
  | cons ch t =>
    rw [hd] at h
    simp only [List.head?] at h
    simpa using h

/-- Strings with different first characters are different. -/
theorem str_ne_of_head_ne {a b : String} (ca cb : Char)
    (ha : a.data.head? = some ca) (hb : b.data.head? = some cb)
    (hne : ca ≠ cb) : a ≠ b := by
  intro h
  rw [h, hb] at ha
  injection ha with h1
  exact hne h1.symm

/-- A marker string occurs in a concatenation whose left part extends
the marker. -/
theorem msgContains_of_prefix {n x : String} (t : List Char) (rest : String)
    (h : x.data = n.data ++ t) : msgContains n (x ++ rest) :=
  ⟨[], t ++ rest.data, by rw [strData_append, h]; simp [List.append_assoc]⟩

/-- A marker string occurs in the middle of a nested concatenation
whose middle part extends the marker. -/
theorem msgContains_of_middle {n x : String} (a : String) (t : List Char)
    (rest : String) (h : x.data = n.data ++ t) :
    msgContains n (a ++ (x ++ rest)) :=
  ⟨a.data, t ++ rest.data, by
    rw [strData_append, strData_append, h]; simp [List.append_assoc]⟩

/-- The status expression of the page loop: `"success"` exactly for
non-empty text, and nothing else ever. -/
theorem status_iff (t : String) :
    ((if t = "" then "empty_or_failed" else "success") = "success" ↔ t ≠ "") ∧
    ((if t = "" then "empty_or_failed" else "success") = "success" ∨
      (if t = "" then "empty_or_failed" else "success") = "empty_or_failed") := by
  by_cases ht : t = ""
  · rw [if_pos ht]
    exact ⟨⟨fun h => absurd h (by decide), fun h => absurd ht h⟩, .inr rfl⟩
  · rw [if_neg ht]
    exact ⟨⟨fun _ => ht, fun _ => rfl⟩, .inl rfl⟩

/-- The page loop produces one `PageResult` per image. -/
theorem buildPages_length (env : OCREnv) (tl : String) :
    ∀ (start : Nat) (imgs : List Image),
      (buildPages env tl start imgs).length = imgs.length := by
  intro start imgs
  induction imgs generalizing start with
  | nil => rfl
  | cons img rest ih => simp [buildPages, ih]

/-- Element `i` of the page loop's output: page number `start + i`,
text from the extraction of image `i`, status derived from the text. -/
theorem buildPages_get? (env : OCREnv) (tl : String) :
    ∀ (start i : Nat) (imgs : List Image),
      (buildPages env tl start imgs).get? i =
        (imgs.get? i).map (fun img =>
          let t := extractStr env tl img
          { page_number := start + i, text := t,
            status := if t = "" then "empty_or_failed" else "success" }) := by
  intro start i imgs
  induction imgs generalizing start i with
  | nil => simp [buildPages]
  | cons img rest ih =>
    cases i with
    | zero => simp [buildPages]
    | succ n =>
      simp only [buildPages, List.get?, ih (start + 1) n]
      have : start + 1 + n = start + (n + 1) := by omega
      rw [this]

/-- Unfolding of `extractStr`: the OCR result stripped, or the empty
string on an engine exception. -/
theorem extractStr_eq (env : OCREnv) (tl : String) (img : Image) :
    extractStr env tl img =
      (match env.ocr tl img with
       | .ok s => pyStrip s
       | .error _ => "") := by
  unfold extractStr extract_text_with_tesseract
  cases env.ocr tl img <;> rfl

/-- Creating a directory makes it present in the store. -/
theorem mkdirParents_mem (st : OutStore) (d : String) :
    d ∈ (st.mkdirParents d).dirs := by
  unfold OutStore.mkdirParents
  by_cases h : st.dirs.contains d
  · rw [if_pos h]; simpa using h
  · rw [if_neg h]; exact List.mem_cons_self d st.dirs

/-- Reading back a written file returns exactly the written content. -/
theorem writeFile_readFile (st : OutStore) (p c : String) :
    (st.writeFile p c).readFile p = some c := by
  unfold OutStore.writeFile OutStore.readFile
  simp [List.find?]

/-- The success path of `save_to_json`: with both required keys present
and a writable target, the function creates the resolved directory,
writes the serialized record at the derived path and returns that
path. -/
theorem save_to_json_success (env : OCREnv) (cfg : OCRConfig)
    (st : OutStore) (data : SaveData) (od : Option String) (pp : String)
    (langs : List String)
    (h1 : data.pdf_path = some pp) (h2 : data.languages = some langs)
    (h3 : env.write_outcome (outputPathFor cfg od pp langs) = none) :
    save_to_json env cfg st data od =
      (.ok (outputPathFor cfg od pp langs),
        (st.mkdirParents (resolvedDir cfg od)).writeFile
          (outputPathFor cfg od pp langs) (serializeData data)) := by
  unfold save_to_json
  rw [h1, h2]
  have h4 : env.write_outcome (resolvedDir cfg od ++ "/" ++ "result_" ++
      pathStem pp ++ "_" ++ pyJoin "_" langs ++ ".json") = none := h3
  simp only [resolvedDir, outputPathFor] at h4 ⊢
  rw [h4]

/-- Draining the generator from a `yielding` state returns exactly the
remaining images, given enough fuel. -/
theorem consumeGen_yielding (env : OCREnv) (cfg : OCRConfig) :
    ∀ (imgs : List Image) (fuel : Nat), imgs.length + 1 ≤ fuel →
      consumeGen env cfg fuel (.yielding imgs) = .ok imgs := by
  intro imgs
  induction imgs with
  | nil =>
    intro fuel h
    match fuel, h with
    | fuel + 1, _ => rfl
  | cons img rest ih =>
    intro fuel h
    match fuel, h with
    | fuel + 1, h =>
      have hr : rest.length + 1 ≤ fuel := by
        simp only [List.length_cons] at h; omega
      simp [consumeGen, genNext, ih fuel hr]

/-- Draining the generator from its initial state computes exactly
`pdf_images_result`: validation, then conversion with its error
wrapping. -/
theorem consumeGen_unstarted (env : OCREnv) (cfg : OCRConfig)
    (p : String) (g : Bool) (fuel : Nat) (h : genFuelNeeded env p g ≤ fuel) :
    consumeGen env cfg fuel (.unstarted p g) = pdf_images_result env cfg p g := by
  match fuel, h with
  | fuel + 1, h =>
    simp only [consumeGen, genNext, pdf_images_result]
    cases hv : validate_pdf_path env cfg p with
    | error e => rfl
    | ok u =>
      cases u
      cases hr : env.rasterize p g with
      | ok imgs =>
        cases imgs with
        | nil => rfl
        | cons img rest =>
          have hg : genFuelNeeded env p g = (img :: rest).length + 2 := by
            unfold genFuelNeeded; rw [hr]
          have hl : (img :: rest).length = rest.length + 1 := List.length_cons img rest
          have hfuel : rest.length + 1 ≤ fuel := by omega
          simp [consumeGen_yielding env cfg rest fuel hfuel]
      | pdfInfoNotInstalled => rfl
      | err m => rfl

/-! ### Claim C1 -/

/-- C1: for every PDF that passes validation and rasterizes to a page
list, `process_pdf` returns a Document Result in which `page_count`
equals the length of `pages`, there is one page per rasterized image,
and the page at 0-based index `i` carries `page_number = i + 1`, in
document page order. -/
theorem process_pdf_page_invariant (env : OCREnv) (cfg : OCRConfig)
    (langs : List String) (p : String) (imgs : List Image)
    (hv : validate_pdf_path env cfg p = .ok ())
    (hr : env.rasterize p true = .ok imgs) :
    ∃ doc, process_pdf env cfg langs p = .ok doc ∧
      doc.page_count = doc.pages.length ∧
      doc.pages.length = imgs.length ∧
      (∀ i, i < doc.pages.length →
        ∃ pg, doc.pages.get? i = some pg ∧ pg.page_number = i + 1) := by
  have hp : pdf_images_result env cfg p true = .ok imgs := by
    unfold pdf_images_result; rw [hv, hr]
  have hmain : process_pdf env cfg langs p = .ok
      { pdf_path := p, pages := buildPages env (pyJoin "+" langs) 1 imgs,
        languages := langs,
        page_count := (buildPages env (pyJoin "+" langs) 1 imgs).length,
        status := "success" } := by
    unfold process_pdf; rw [hp]
  refine ⟨_, hmain, rfl, buildPages_length env (pyJoin "+" langs) 1 imgs, ?_⟩
  intro i hi
  have hlen : i < imgs.length := by
    rw [← buildPages_length env (pyJoin "+" langs) 1 imgs]; exact hi
  have himg : imgs.get? i = some (imgs.get ⟨i, hlen⟩) := List.get?_eq_get hlen
  have hbp := buildPages_get? env (pyJoin "+" langs) 1 i imgs
  rw [himg] at hbp
  simp only [Option.map_some'] at hbp
  exact ⟨_, hbp, Nat.add_comm 1 i⟩

/-- Witness for C1 on a concrete two-page document. -/
theorem process_pdf_page_invariant_witness :
    ∃ doc, process_pdf envTwoPages {} ["eng"] "input/doc.pdf" = .ok doc ∧
      doc.page_count = doc.pages.length ∧
      doc.pages.length = [imgA, imgB].length ∧
      (∀ i, i < doc.pages.length →
        ∃ pg, doc.pages.get? i = some pg ∧ pg.page_number = i + 1) :=
  process_pdf_page_invariant envTwoPages {} ["eng"] "input/doc.pdf"
    [imgA, imgB] rfl rfl

/-! ### Claim C2 -/

/-- C2: `extract_text_with_tesseract` never raises to its caller: for
every image it returns a string, and on any internal recognition
failure the result is the empty string. -/
theorem extract_never_raises (env : OCREnv) (tl : String) (img : Image) :
    (∃ s, extract_text_with_tesseract env tl img = .ok s) ∧
    (∀ m, env.ocr tl img = .error m →
      extract_text_with_tesseract env tl img = .ok "") := by
  constructor
  · unfold extract_text_with_tesseract
    cases env.ocr tl img with
    | ok s => exact ⟨pyStrip s, rfl⟩
    | error m => exact ⟨"", rfl⟩
  · intro m hm
    unfold extract_text_with_tesseract
    rw [hm]

/-- Witness for C2 on an engine that crashes. -/
theorem extract_never_raises_witness :
    envOcrFail.ocr "eng" imgA = .error "tesseract crashed" ∧
    extract_text_with_tesseract envOcrFail "eng" imgA = .ok "" :=
  ⟨rfl, (extract_never_raises envOcrFail "eng" imgA).2 "tesseract crashed" rfl⟩

/-! ### Claim C4 -/

/-- C4: the validator performs its checks in the fixed order existence,
case-insensitive `.pdf` extension, size strictly positive, size within
the configured maximum (default `100 * 1024 * 1024` bytes), raising a
distinct error at the first failing check: `FileNotFoundError`, then
`ValueError` with three pairwise different messages.  The filesystem is
only read (`validate_pdf_path` consumes `env` and returns no new
state). -/
theorem validate_pdf_path_check_order (env : OCREnv) (cfg : OCRConfig) (p : String) :
    (env.fs_exists p = false →
      validate_pdf_path env cfg p =
        .error (.fileNotFoundError ("Файл не найден: " ++ p))) ∧
    (env.fs_exists p = true → pyLower (pathSuffix p) ≠ ".pdf" →
      validate_pdf_path env cfg p =
        .error (.valueError ("Файл должен быть PDF: " ++ p))) ∧
    (env.fs_exists p = true → pyLower (pathSuffix p) = ".pdf" →
      env.fs_size p = 0 →
      validate_pdf_path env cfg p =
        .error (.valueError ("Пустой PDF-файл: " ++ p))) ∧
    (env.fs_exists p = true → pyLower (pathSuffix p) = ".pdf" →
      env.fs_size p ≠ 0 → cfg.PDF_SIZE_LIMIT < env.fs_size p →
      validate_pdf_path env cfg p =
        .error (.valueError ("Размер PDF превышает " ++
          toString cfg.PDF_SIZE_LIMIT ++ " МБ: " ++ p))) ∧
    (env.fs_exists p = true → pyLower (pathSuffix p) = ".pdf" →
      env.fs_size p ≠ 0 → env.fs_size p ≤ cfg.PDF_SIZE_LIMIT →
      validate_pdf_path env cfg p = .ok ()) ∧
    (({} : OCRConfig).PDF_SIZE_LIMIT = 100 * 1024 * 1024) ∧
    ((PyError.valueError ("Файл должен быть PDF: " ++ p)) ≠
        .valueError ("Пустой PDF-файл: " ++ p) ∧
      (PyError.valueError ("Файл должен быть PDF: " ++ p)) ≠
        .valueError ("Размер PDF превышает " ++
          toString cfg.PDF_SIZE_LIMIT ++ " МБ: " ++ p) ∧
      (PyError.valueError ("Пустой PDF-файл: " ++ p)) ≠
        .valueError ("Размер PDF превышает " ++
          toString cfg.PDF_SIZE_LIMIT ++ " МБ: " ++ p) ∧
      ∀ m1 m2 : String, (PyError.fileNotFoundError m1) ≠ .valueError m2) := by
  refine ⟨?_, ?_, ?_, ?_, ?_, rfl, ?_, ?_, ?_, ?_⟩
  · intro h1; unfold validate_pdf_path; rw [h1]; rfl
  · intro h1 h2; unfold validate_pdf_path; rw [h1]; simp [h2]
  · intro h1 h2 h3; unfold validate_pdf_path; rw [h1]; simp [h2, h3]
  · intro h1 h2 h3 h4; unfold validate_pdf_path; rw [h1]
    have h5 : env.fs_size p > cfg.PDF_SIZE_LIMIT := h4
    simp [h2, h3, h5]
  · intro h1 h2 h3 h4; unfold validate_pdf_path; rw [h1]
    have h5 : ¬ (env.fs_size p > cfg.PDF_SIZE_LIMIT) := by omega
    simp [h2, h3, h5]
  · intro h
    injection h with h1
    exact str_ne_of_head_ne 'Ф' 'П'
      (headData_append p (by decide)) (headData_append p (by decide))
      (by decide) h1
  · intro h
    injection h with h1
    exact str_ne_of_head_ne 'Ф' 'Р'
      (headData_append p (by decide))
      (headData_append p (headData_append " МБ: "
        (headData_append (toString cfg.PDF_SIZE_LIMIT) (by decide))))
      (by decide) h1
  · intro h
    injection h with h1
    exact str_ne_of_head_ne 'П' 'Р'
      (headData_append p (by decide))
      (headData_append p (headData_append " МБ: "
        (headData_append (toString cfg.PDF_SIZE_LIMIT) (by decide))))
      (by decide) h1
  · intro m1 m2 h
    exact PyError.noConfusion h

/-- Witness for C4: each of the five outcomes on a concrete input. -/
theorem validate_pdf_path_check_order_witness :
    validate_pdf_path envMissingFile {} "doc.pdf" =
      .error (.fileNotFoundError ("Файл не найден: " ++ "doc.pdf")) ∧
    validate_pdf_path baseEnv {} "doc.txt" =
      .error (.valueError ("Файл должен быть PDF: " ++ "doc.txt")) ∧
    validate_pdf_path envZeroSize {} "doc.pdf" =
      .error (.valueError ("Пустой PDF-файл: " ++ "doc.pdf")) ∧
    validate_pdf_path envHuge {} "doc.pdf" =
      .error (.valueError ("Размер PDF превышает " ++
        toString ({} : OCRConfig).PDF_SIZE_LIMIT ++ " МБ: " ++ "doc.pdf")) ∧
    validate_pdf_path baseEnv {} "doc.pdf" = .ok () :=
  ⟨(validate_pdf_path_check_order envMissingFile {} "doc.pdf").1 rfl,
   (validate_pdf_path_check_order baseEnv {} "doc.txt").2.1 rfl (by decide),
   (validate_pdf_path_check_order envZeroSize {} "doc.pdf").2.2.1 rfl (by decide) rfl,
   (validate_pdf_path_check_order envHuge {} "doc.pdf").2.2.2.1 rfl (by decide)
     (by decide) (by decide),
   (validate_pdf_path_check_order baseEnv {} "doc.pdf").2.2.2.2.1 rfl (by decide)
     (by decide) (by decide)⟩

/-! ### Claim C3 -/

/-- C3: every invocation of `process_pdf` either returns a complete
Document Result with `status = "success"` and a consistent page count,
or raises a single `PDFProcessingError` wrapping the original cause's
message; and for a document that passes validation but fails
rasterization the raised message carries both the generic
processing-failed marker and the specific conversion-failed marker. -/
theorem process_pdf_all_or_nothing (env : OCREnv) (cfg : OCRConfig)
    (langs : List String) (p : String) :
    ((∃ doc, process_pdf env cfg langs p = .ok doc ∧
        doc.status = "success" ∧ doc.page_count = doc.pages.length) ∨
      (∃ m, process_pdf env cfg langs p =
        .error (.pdfProcessingError ("Ошибка обработки PDF: " ++ m)))) ∧
    (∀ m, validate_pdf_path env cfg p = .ok () → env.rasterize p true = .err m →
      process_pdf env cfg langs p =
        .error (.pdfProcessingError ("Ошибка обработки PDF: " ++
          ("Ошибка конвертации PDF: " ++ m))) ∧
      msgContains "Ошибка обработки PDF"
        ("Ошибка обработки PDF: " ++ ("Ошибка конвертации PDF: " ++ m)) ∧
      msgContains "Ошибка конвертации PDF"
        ("Ошибка обработки PDF: " ++ ("Ошибка конвертации PDF: " ++ m))) := by
  constructor
  · unfold process_pdf
    cases pdf_images_result env cfg p true with
    | error e => exact .inr ⟨e.message, rfl⟩
    | ok imgs => exact .inl ⟨_, rfl, rfl, rfl⟩
  · intro m hv hr
    have hp : pdf_images_result env cfg p true =
        .error (.pdfProcessingError ("Ошибка конвертации PDF: " ++ m)) := by
      unfold pdf_images_result; rw [hv, hr]
    refine ⟨?_, ?_, ?_⟩
    · unfold process_pdf; rw [hp]; rfl
    · exact msgContains_of_prefix (": ").data _ (by decide)
    · exact msgContains_of_middle _ (": ").data _ (by decide)

/-- Witness for C3: a corrupted PDF that passes validation and fails
rasterization yields the doubly-marked error. -/
theorem process_pdf_all_or_nothing_witness :
    process_pdf envConvFail {} ["eng"] "input/doc.pdf" =
      .error (.pdfProcessingError ("Ошибка обработки PDF: " ++
        ("Ошибка конвертации PDF: " ++ "broken xref table"))) ∧
    msgContains "Ошибка обработки PDF"
      ("Ошибка обработки PDF: " ++
        ("Ошибка конвертации PDF: " ++ "broken xref table")) ∧
    msgContains "Ошибка конвертации PDF"
      ("Ошибка обработки PDF: " ++
        ("Ошибка конвертации PDF: " ++ "broken xref table")) :=
  (process_pdf_all_or_nothing envConvFail {} ["eng"] "input/doc.pdf").2
    "broken xref table" rfl rfl

/-! ### Claim C5 -/

/-- C5: every Page Result of `process_pdf` carries as `text` the
recognized text stripped of leading and trailing whitespace (the empty
string when the engine failed), and `status = "success"` exactly when
that text is non-empty (`"empty_or_failed"` otherwise). -/
theorem page_text_trimmed_status (env : OCREnv) (cfg : OCRConfig)
    (langs : List String) (p : String) (imgs : List Image)
    (doc : DocumentResult)
    (hr : pdf_images_result env cfg p true = .ok imgs)
    (hd : process_pdf env cfg langs p = .ok doc) :
    ∀ i, i < doc.pages.length →
      ∃ pg img, doc.pages.get? i = some pg ∧ imgs.get? i = some img ∧
        (∀ s, env.ocr (pyJoin "+" langs) img = .ok s → pg.text = pyStrip s) ∧
        (∀ m, env.ocr (pyJoin "+" langs) img = .error m → pg.text = "") ∧
        (pg.status = "success" ↔ pg.text ≠ "") ∧
        (pg.status = "success" ∨ pg.status = "empty_or_failed") := by
  have h0 : process_pdf env cfg langs p = .ok
      { pdf_path := p, pages := buildPages env (pyJoin "+" langs) 1 imgs,
        languages := langs,
        page_count := (buildPages env (pyJoin "+" langs) 1 imgs).length,
        status := "success" } := by
    unfold process_pdf; rw [hr]
  have hdoc : doc =
      { pdf_path := p, pages := buildPages env (pyJoin "+" langs) 1 imgs,
        languages := langs,
        page_count := (buildPages env (pyJoin "+" langs) 1 imgs).length,
        status := "success" } := by
    have h1 := hd.symm.trans h0
    injection h1 with h2
  subst hdoc
  intro i hi
  simp only at hi
  have hlen : i < imgs.length := by
    rw [← buildPages_length env (pyJoin "+" langs) 1 imgs]; exact hi
  have himg : imgs.get? i = some (imgs.get ⟨i, hlen⟩) := List.get?_eq_get hlen
  have hbp := buildPages_get? env (pyJoin "+" langs) 1 i imgs
  rw [himg] at hbp
  simp only [Option.map_some'] at hbp
  refine ⟨_, imgs.get ⟨i, hlen⟩, hbp, himg, ?_, ?_, ?_, ?_⟩
  · intro s hs
    show extractStr env (pyJoin "+" langs) (imgs.get ⟨i, hlen⟩) = pyStrip s
    rw [extractStr_eq, hs]
  · intro m hm
    show extractStr env (pyJoin "+" langs) (imgs.get ⟨i, hlen⟩) = ""
    rw [extractStr_eq, hm]
  · exact (status_iff (extractStr env (pyJoin "+" langs) (imgs.get ⟨i, hlen⟩))).1
  · exact (status_iff (extractStr env (pyJoin "+" langs) (imgs.get ⟨i, hlen⟩))).2

/-- Witness for C5 on the first page of the concrete two-page
document. -/
theorem page_text_trimmed_status_witness :
    ∃ pg img, docTwoPages.pages.get? 0 = some pg ∧
      [imgA, imgB].get? 0 = some img ∧
      (∀ s, envTwoPages.ocr (pyJoin "+" ["eng"]) img = .ok s →
        pg.text = pyStrip s) ∧
      (∀ m, envTwoPages.ocr (pyJoin "+" ["eng"]) img = .error m →
        pg.text = "") ∧
      (pg.status = "success" ↔ pg.text ≠ "") ∧
      (pg.status = "success" ∨ pg.status = "empty_or_failed") :=
  page_text_trimmed_status envTwoPages {} ["eng"] "input/doc.pdf"
    [imgA, imgB] docTwoPages rfl rfl 0 (by decide)

/-! ### Claim C6 -/

/-- C6: on a validated document whose rasterization yields zero pages,
the strict legacy variant raises (a `PDFProcessingError` wrapping the
no-images condition), while the validated design returns a Document
Result with `page_count = 0`, no pages, and `status = "success"`. -/
theorem zero_page_divergence (env : OCREnv) (cfg : OCRConfig)
    (langs : List String) (p : String)
    (h1 : env.fs_exists p = true) (h2 : pyLower (pathSuffix p) = ".pdf")
    (h3 : env.fs_size p ≠ 0) (h4 : env.fs_size p ≤ cfg.PDF_SIZE_LIMIT)
    (h5 : env.rasterize p true = .ok []) (h6 : env.rasterize p false = .ok []) :
    legacy_process_pdf env langs p =
      .error (.pdfProcessingError ("Ошибка обработки PDF: " ++
        "PDF не содержит изображений или пуст")) ∧
    process_pdf env cfg langs p =
      .ok { pdf_path := p, pages := [], languages := langs,
            page_count := 0, status := "success" } := by
  constructor
  · unfold legacy_process_pdf legacy_pdf_to_images
    rw [h1, h6]
    simp [h2, PyError.message]
  · have hv : validate_pdf_path env cfg p = .ok () := by
      unfold validate_pdf_path
      rw [h1]
      have h7 : ¬ (env.fs_size p > cfg.PDF_SIZE_LIMIT) := by omega
      simp [h2, h3, h7]
    have hp : pdf_images_result env cfg p true = .ok [] := by
      unfold pdf_images_result; rw [hv, h5]
    unfold process_pdf
    rw [hp]
    rfl

/-- Witness for C6 on a concrete zero-page document. -/
theorem zero_page_divergence_witness :
    legacy_process_pdf baseEnv ["eng"] "input/doc.pdf" =
      .error (.pdfProcessingError ("Ошибка обработки PDF: " ++
        "PDF не содержит изображений или пуст")) ∧
    process_pdf baseEnv {} ["eng"] "input/doc.pdf" =
      .ok { pdf_path := "input/doc.pdf", pages := [], languages := ["eng"],
            page_count := 0, status := "success" } :=
  zero_page_divergence baseEnv {} ["eng"] "input/doc.pdf" rfl (by decide)
    (by decide) (by decide) rfl rfl

/-! ### Claim C7 -/

/-- C7: `save_to_json` fails with a `ValueError` when the record lacks
`pdf_path` or `languages` (leaving the store untouched); otherwise it
writes the serialized record to
`<dir>/result_<stem>_<langs-joined-by-underscore>.json`, creating the
output directory if absent (default `"output"`), and returns that
path. -/
theorem save_to_json_contract (env : OCREnv) (cfg : OCRConfig)
    (st : OutStore) (data : SaveData) (od : Option String) :
    ((data.pdf_path = none ∨ data.languages = none) →
      save_to_json env cfg st data od =
        (.error (.valueError "Данные должны содержать pdf_path и languages"), st)) ∧
    (∀ pp langs, data.pdf_path = some pp → data.languages = some langs →
      env.write_outcome (outputPathFor cfg od pp langs) = none →
      ∃ st1, save_to_json env cfg st data od =
          (.ok (outputPathFor cfg od pp langs), st1) ∧
        resolvedDir cfg od ∈ st1.dirs ∧
        st1.readFile (outputPathFor cfg od pp langs) =
          some (serializeData data)) ∧
    (resolvedDir cfg none = cfg.DEFAULT_OUTPUT_DIR) ∧
    (({} : OCRConfig).DEFAULT_OUTPUT_DIR = "output") := by
  refine ⟨?_, ?_, rfl, rfl⟩
  · intro h
    obtain ⟨pdfp, lgs, ex⟩ := data
    unfold save_to_json
    rcases h with h | h <;> simp only at h <;> subst h
    · rfl
    · cases pdfp <;> rfl
  · intro pp langs h1 h2 h3
    refine ⟨_, save_to_json_success env cfg st data od pp langs h1 h2 h3, ?_, ?_⟩
    · show resolvedDir cfg od ∈
        ((st.mkdirParents (resolvedDir cfg od)).writeFile
          (outputPathFor cfg od pp langs) (serializeData data)).dirs
      exact mkdirParents_mem st (resolvedDir cfg od)
    · exact writeFile_readFile (st.mkdirParents (resolvedDir cfg od))
        (outputPathFor cfg od pp langs) (serializeData data)

/-- Witness for C7: one missing-key failure and one successful write
into the default directory. -/
theorem save_to_json_contract_witness :
    save_to_json baseEnv {} { dirs := [], files := [] }
        { pdf_path := none, languages := some ["eng"], extra := [] } none =
      (.error (.valueError "Данные должны содержать pdf_path и languages"),
        { dirs := [], files := [] }) ∧
    ∃ st1, save_to_json baseEnv {} { dirs := [], files := [] }
        { pdf_path := some "input/doc.pdf", languages := some ["eng", "rus"],
          extra := [("status", "success")] } none =
        (.ok (outputPathFor {} none "input/doc.pdf" ["eng", "rus"]), st1) ∧
      resolvedDir {} none ∈ st1.dirs ∧
      st1.readFile (outputPathFor {} none "input/doc.pdf" ["eng", "rus"]) =
        some (serializeData
          { pdf_path := some "input/doc.pdf", languages := some ["eng", "rus"],
            extra := [("status", "success")] }) :=
  ⟨(save_to_json_contract baseEnv {} { dirs := [], files := [] }
      { pdf_path := none, languages := some ["eng"], extra := [] } none).1
      (.inl rfl),
   (save_to_json_contract baseEnv {} { dirs := [], files := [] }
      { pdf_path := some "input/doc.pdf", languages := some ["eng", "rus"],
        extra := [("status", "success")] } none).2.1
      "input/doc.pdf" ["eng", "rus"] rfl rfl rfl⟩

/-! ### Claim C8 -/

/-- C8: saving the same record twice with the same output directory
writes to the same path both times and leaves the file holding exactly
the serialized record after each invocation — the second write
overwrites the first instead of appending. -/
theorem save_to_json_idempotent (env : OCREnv) (cfg : OCRConfig)
    (st : OutStore) (data : SaveData) (od : Option String) (pp : String)
    (langs : List String)
    (h1 : data.pdf_path = some pp) (h2 : data.languages = some langs)
    (h3 : env.write_outcome (outputPathFor cfg od pp langs) = none) :
    (save_to_json env cfg st data od).1 =
      .ok (outputPathFor cfg od pp langs) ∧
    (save_to_json env cfg (save_to_json env cfg st data od).2 data od).1 =
      .ok (outputPathFor cfg od pp langs) ∧
    ((save_to_json env cfg st data od).2).readFile
      (outputPathFor cfg od pp langs) = some (serializeData data) ∧
    ((save_to_json env cfg (save_to_json env cfg st data od).2 data od).2).readFile
      (outputPathFor cfg od pp langs) = some (serializeData data) := by
  have hs1 := save_to_json_success env cfg st data od pp langs h1 h2 h3
  have hs2 := save_to_json_success env cfg
    ((st.mkdirParents (resolvedDir cfg od)).writeFile
      (outputPathFor cfg od pp langs) (serializeData data))
    data od pp langs h1 h2 h3
  have key2 : save_to_json env cfg (save_to_json env cfg st data od).2 data od =
      (.ok (outputPathFor cfg od pp langs),
        (((st.mkdirParents (resolvedDir cfg od)).writeFile
            (outputPathFor cfg od pp langs)
            (serializeData data)).mkdirParents (resolvedDir cfg od)).writeFile
          (outputPathFor cfg od pp langs) (serializeData data)) := by
    rw [hs1]; exact hs2
  refine ⟨?_, ?_, ?_, ?_⟩
  · rw [hs1]
  · rw [key2]
  · rw [hs1]
    exact writeFile_readFile _ _ _
  · rw [key2]
    exact writeFile_readFile _ _ _

/-- Witness for C8 on a concrete record and an empty store. -/
theorem save_to_json_idempotent_witness :
    (save_to_json baseEnv {} { dirs := [], files := [] }
        { pdf_path := some "input/doc.pdf", languages := some ["eng"],
          extra := [] } none).1 =
      .ok (outputPathFor {} none "input/doc.pdf" ["eng"]) ∧
    (save_to_json baseEnv {}
        (save_to_json baseEnv {} { dirs := [], files := [] }
          { pdf_path := some "input/doc.pdf", languages := some ["eng"],
            extra := [] } none).2
        { pdf_path := some "input/doc.pdf", languages := some ["eng"],
          extra := [] } none).1 =
      .ok (outputPathFor {} none "input/doc.pdf" ["eng"]) ∧
    ((save_to_json baseEnv {} { dirs := [], files := [] }
        { pdf_path := some "input/doc.pdf", languages := some ["eng"],
          extra := [] } none).2).readFile
      (outputPathFor {} none "input/doc.pdf" ["eng"]) =
      some (serializeData
        { pdf_path := some "input/doc.pdf",
          languages := some ["eng"], extra := [] }) ∧
    ((save_to_json baseEnv {}
        (save_to_json baseEnv {} { dirs := [], files := [] }
          { pdf_path := some "input/doc.pdf", languages := some ["eng"],
            extra := [] } none).2
        { pdf_path := some "input/doc.pdf", languages := some ["eng"],
          extra := [] } none).2).readFile
      (outputPathFor {} none "input/doc.pdf" ["eng"]) =
      some (serializeData
        { pdf_path := some "input/doc.pdf",
          languages := some ["eng"], extra := [] }) :=
  save_to_json_idempotent baseEnv {} { dirs := [], files := [] }
    { pdf_path := some "input/doc.pdf", languages := some ["eng"], extra := [] }
    none "input/doc.pdf" ["eng"] rfl rfl rfl

/-! ### Claim C9 -/

/-- C9 counterexample: constructing the processor with the concrete
language list `["eng", 42]` (a non-string element) raises a
`ValueError` carrying the all-must-be-strings message — the same
exception class as the empty-list case — and not a `TypeError`, so the
claim's "fails with a type error" is false on the code. -/
theorem nonstring_language_not_type_error :
    mkProcessor baseEnv (.listArg [.pstr "eng", .pother "int"]) =
      .error (.valueError "Все языки должны быть строками") ∧
    ¬ ∃ m, mkProcessor baseEnv (.listArg [.pstr "eng", .pother "int"]) =
      .error (.typeError m) := by
  refine ⟨rfl, ?_⟩
  rintro ⟨m, h⟩
  have hv : mkProcessor baseEnv (.listArg [.pstr "eng", .pother "int"]) =
      .error (.valueError "Все языки должны быть строками") := rfl
  have h2 := hv.symm.trans h
  injection h2 with h3
  exact PyError.noConfusion h3

/-- C9 (amended): constructing the processor with an explicitly given
empty language list fails with a `ValueError` stating that the list
cannot be empty, and constructing it with a list containing a
non-string element fails with a `ValueError` stating that all
languages must be strings; in both cases no `Processor` value is
produced. -/
theorem construction_language_failures (env : OCREnv) (xs : List PyVal)
    (tn : String) (hmem : PyVal.pother tn ∈ xs) :
    mkProcessor env (.listArg []) =
      .error (.valueError "Список языков не может быть пустым") ∧
    mkProcessor env (.listArg xs) =
      .error (.valueError "Все языки должны быть строками") := by
  constructor
  · rfl
  · have hne : xs ≠ [] := by
      intro h; subst h; cases hmem
    have hall : (xs.all fun v => match v with
        | .pstr _ => true | .pother _ => false) = false := by
      rw [List.all_eq_false]
      exact ⟨.pother tn, hmem, by simp⟩
    have hval : validate_input_languages {} (.listArg xs) =
        .error (.valueError "Все языки должны быть строками") := by
      simp only [validate_input_languages]
      rw [if_neg hne, if_pos hall]
    simp only [mkProcessor]
    rw [hval]

/-- Witness for the amended C9 at a concrete non-string element. -/
theorem construction_language_failures_witness :
    mkProcessor baseEnv (.listArg []) =
      .error (.valueError "Список языков не может быть пустым") ∧
    mkProcessor baseEnv (.listArg [.pstr "eng", .pother "int"]) =
      .error (.valueError "Все языки должны быть строками") :=
  construction_language_failures baseEnv [.pstr "eng", .pother "int"]
    "int" (by decide)

/-! ### Claim C10 -/

/-- C10: `pdf_to_images` is a generator: the call itself only builds
the unstarted generator for any path and never raises; validation runs
— and any validation error surfaces — only when the first element is
requested; each remaining page is yielded exactly once, in order
(single pass); an exhausted generator keeps signalling the end and
never restarts; and full consumption computes exactly the
validate-then-rasterize result. -/
theorem pdf_to_images_generator_lazy :
    (∀ p g, pdf_to_images p g = GenState.unstarted p g) ∧
    (∀ env cfg p g e, validate_pdf_path env cfg p = .error e →
      genNext env cfg (pdf_to_images p g) = .error e) ∧
    (∀ (env : OCREnv) cfg p, env.fs_exists p = false →
      genNext env cfg (pdf_to_images p true) =
        .error (.fileNotFoundError ("Файл не найден: " ++ p))) ∧
    (∀ env cfg img rest, genNext env cfg (.yielding (img :: rest)) =
      .ok (some img, .yielding rest)) ∧
    (∀ env cfg imgs fuel, imgs.length + 1 ≤ fuel →
      consumeGen env cfg fuel (.yielding imgs) = .ok imgs) ∧
    (∀ env cfg, genNext env cfg .finished = .ok (none, .finished)) ∧
    (∀ env cfg p g fuel, genFuelNeeded env p g ≤ fuel →
      consumeGen env cfg fuel (.unstarted p g) =
        pdf_images_result env cfg p g) := by
  refine ⟨fun p g => rfl, ?_, ?_, fun env cfg img rest => rfl,
    fun env cfg imgs fuel h => consumeGen_yielding env cfg imgs fuel h,
    fun env cfg => rfl,
    fun env cfg p g fuel h => consumeGen_unstarted env cfg p g fuel h⟩
  · intro env cfg p g e he
    simp only [pdf_to_images, genNext, he]
  · intro env cfg p hne
    simp only [pdf_to_images, genNext, validate_pdf_path, hne]
    rfl

/-- Witness for C10: deferred validation failure on a nonexistent path,
a single-pass drain, and a full consumption agreeing with the direct
result. -/
theorem pdf_to_images_generator_lazy_witness :
    genNext envMissingFile {} (pdf_to_images "input/doc.pdf" true) =
      .error (.fileNotFoundError ("Файл не найден: " ++ "input/doc.pdf")) ∧
    consumeGen envMissingFile {} 3 (.yielding [imgA, imgB]) =
      .ok [imgA, imgB] ∧
    consumeGen envTwoPages {} (genFuelNeeded envTwoPages "input/doc.pdf" true)
        (.unstarted "input/doc.pdf" true) =
      pdf_images_result envTwoPages {} "input/doc.pdf" true :=
  ⟨pdf_to_images_generator_lazy.2.2.1 envMissingFile {} "input/doc.pdf" rfl,
   pdf_to_images_generator_lazy.2.2.2.2.1 envMissingFile {} [imgA, imgB] 3
     (by decide),
   pdf_to_images_generator_lazy.2.2.2.2.2.2 envTwoPages {} "input/doc.pdf"
     true (genFuelNeeded envTwoPages "input/doc.pdf" true) (Nat.le_refl _)⟩
